import Mathlib

/-!
Verification of the WeddingPlan booking core (src/models.py, src/app.py,
src/forms.py) against its natural-language specification.

The data model and the route bodies are embedded shallowly:
SQLAlchemy rows become structures, the database session becomes an explicit
`DB` value, monetary Numeric values become exact rationals, and each Flask
route body (after the HTTP plumbing) becomes a Lean function from the
fetched state and the parsed request data to a result and the new state.
`request.form.get(name, type=...)` yields `Option` values: `none` when the
field is missing or fails the type conversion.
-/

/-- Row of the `usuarios` table (models.py, class Usuario): only the columns
the verified routes read. -/
structure Usuario where
  id : Nat
  username : String
  password_hash : String
  rol : String
  activo : Bool
deriving DecidableEq

/-- models.py line 33: `es_admin` returns whether the rol field equals "admin". -/
def Usuario.es_admin (u : Usuario) : Bool :=
  u.rol == "admin"

/-- Row of the `servicios` table (models.py, class Servicio): the columns the
verified routes read. -/
structure Servicio where
  id : Nat
  nombre : String
  precio_base : ℚ
  disponible : Bool
deriving DecidableEq

/-- Row of the `eventos` table (models.py, class Evento). `fecha_evento` is a
parsed timestamp, `estado` is one of pendiente, confirmado, cancelado,
completado. -/
structure Evento where
  id : Nat
  usuario_id : Nat
  titulo : String
  descripcion : String
  fecha_evento : Nat
  lugar : String
  num_invitados : Option Nat
  presupuesto_estimado : Option ℚ
  estado : String
deriving DecidableEq

/-- Row of the `evento_servicio` association table (models.py, class
EventoServicio). -/
structure EventoServicio where
  evento_id : Nat
  servicio_id : Nat
  precio_acordado : ℚ
deriving DecidableEq

/-- The persistent store the routes read and write. -/
structure DB where
  eventos : List Evento
  servicios : List Servicio
  evento_servicio : List EventoServicio
deriving DecidableEq

/-- The `servicios_contratados` relationship of an Evento (models.py line
110): the association rows whose `evento_id` equals the id of this event. -/
def Evento.servicios_contratados (db : DB) (e : Evento) : List EventoServicio :=
  db.evento_servicio.filter (fun es => es.evento_id == e.id)

/-- models.py lines 115-118, `Evento.calcular_total`: the sum of
`precio_acordado` over `servicios_contratados` (Python `sum` starts at 0, so
an event with no attachments totals 0). -/
def Evento.calcular_total (db : DB) (e : Evento) : ℚ :=
  ((Evento.servicios_contratados db e).map (fun es => es.precio_acordado)).sum

/-- The ownership test repeated verbatim in app.py lines 174, 188, 227, 244
and 281: `evento.usuario_id != current_user.id and not current_user.es_admin()`.
When it is true the route flashes a permission error and redirects without
touching the store. -/
def acceso_denegado (u : Usuario) (e : Evento) : Bool :=
  (e.usuario_id != u.id) && !u.es_admin

/-- The view permission of `cliente_ver_evento` (app.py lines 172-176): the
event page is shown exactly when the ownership test does not deny access. -/
def can_view_event (u : Usuario) (e : Evento) : Bool :=
  !acceso_denegado u e

/-- The mutation permission guarding `cliente_editar_evento`,
`cliente_cancelar_evento`, `cliente_agregar_servicio` and
`cliente_eliminar_servicio` (app.py lines 188, 227, 244, 281): the same
ownership test as the view permission. -/
def can_mutate_event (u : Usuario) (e : Evento) : Bool :=
  !acceso_denegado u e

/-- Python truthiness of an optional float, as used by
`if not servicio_id or not precio_acordado:` (app.py line 251): None and 0.0
are falsy, every other float is truthy. -/
def truthyRat (o : Option ℚ) : Bool :=
  match o with
  | none => false
  | some q => q != 0

/-- Python truthiness of an optional int (app.py line 251): None and 0 are
falsy. -/
def truthyNat (o : Option Nat) : Bool :=
  match o with
  | none => false
  | some n => n != 0

/-- Round-half-even of a rational to an integer: the rounding CPython uses
when a decimal literal is converted to a float. -/
def rne (q : ℚ) : ℤ :=
  if q - ⌊q⌋ < 1 / 2 then ⌊q⌋
  else if 1 / 2 < q - ⌊q⌋ then ⌊q⌋ + 1
  else if ⌊q⌋ % 2 = 0 then ⌊q⌋ else ⌊q⌋ + 1

/-- Modelled behaviour of the `type=float` converter that
`request.form.get` with type=float applies to the submitted price at app.py line 249:
the submitted decimal is replaced by the nearest IEEE-754 binary64 value
(round to nearest, ties to even; normal range, which covers every price the
form can carry). The result is the dyadic rational rne(q * 2 ^ s) / 2 ^ s
with s chosen so that the scaled value uses 53 significant bits. -/
def pyFloat (q : ℚ) : ℚ :=
  (rne (q * 2 ^ (52 - Int.log 2 |q|)) : ℚ) / 2 ^ (52 - Int.log 2 |q|)

/-- Round half away from zero to an integer: the rounding the PostgreSQL
numeric type applies when a value is reduced to a given scale. -/
def roundHalfAway (x : ℚ) : ℤ :=
  if 0 ≤ x then ⌊x + 1 / 2⌋ else -⌊-x + 1 / 2⌋

/-- Modelled behaviour of the Numeric(10, 2) column type of
EventoServicio.precio_acordado (models.py line 133) on the PostgreSQL
backend configured in config.py: at write time the bound value is quantized
to scale 2, that is rounded half away from zero to a multiple of 1/100.
For the floats the attach route binds, the shortest round-trip adaptation
of the float followed by this scale-2 rounding recovers the submitted
two-decimal price exactly. -/
def numericEscala2 (x : ℚ) : ℚ :=
  (roundHalfAway (x * 100) : ℚ) / 100

/-- Results of the `cliente_agregar_servicio` route (app.py lines 238-272). -/
inductive AttachResult where
  | not_found_evento
  | sin_permiso
  | datos_incompletos
  | not_found_servicio
  | ya_agregado
  | ok
deriving DecidableEq

/-- app.py lines 238-272, `cliente_agregar_servicio`: fetch the event
(404 when absent), run the ownership test, read `servicio_id` (type=int) and
`precio_acordado` (type=float) from the form, reject falsy values with
"Datos incompletos", fetch the service (404 when absent), reject an existing
(evento, servicio) association, otherwise insert a new association row with
the parsed price. The insert writes through the Numeric(10, 2) column
(models.py line 133), so the value that reaches the store is the scale-2
quantization of the parsed float, modelled by numericEscala2. -/
def cliente_agregar_servicio (db : DB) (u : Usuario) (evento_id : Nat)
    (servicio_id : Option Nat) (precio_acordado : Option ℚ) : AttachResult × DB :=
  match db.eventos.find? (fun e => e.id == evento_id) with
  | none => (.not_found_evento, db)
  | some evento =>
    if acceso_denegado u evento then (.sin_permiso, db)
    else if !truthyNat servicio_id || !truthyRat precio_acordado then
      (.datos_incompletos, db)
    else
      match db.servicios.find? (fun s => s.id == servicio_id.getD 0) with
      | none => (.not_found_servicio, db)
      | some _ =>
        if (db.evento_servicio.find? (fun es =>
            es.evento_id == evento_id && es.servicio_id == servicio_id.getD 0)).isSome then
          (.ya_agregado, db)
        else
          (.ok, { db with evento_servicio := db.evento_servicio ++
            [{ evento_id := evento_id, servicio_id := servicio_id.getD 0,
               precio_acordado := numericEscala2 (precio_acordado.getD 0) }] })

/-- Results of the `cliente_eliminar_servicio` route (app.py lines 275-291). -/
inductive DetachResult where
  | not_found_evento
  | sin_permiso
  | not_found_asociacion
  | ok
deriving DecidableEq

/-- app.py lines 275-291, `cliente_eliminar_servicio`: fetch the event, run
the ownership test, fetch the first association row matching (evento_id,
servicio_id) (404 when absent) and delete it. -/
def cliente_eliminar_servicio (db : DB) (u : Usuario) (evento_id servicio_id : Nat) :
    DetachResult × DB :=
  match db.eventos.find? (fun e => e.id == evento_id) with
  | none => (.not_found_evento, db)
  | some evento =>
    if acceso_denegado u evento then (.sin_permiso, db)
    else
      match db.evento_servicio.find? (fun es =>
          es.evento_id == evento_id && es.servicio_id == servicio_id) with
      | none => (.not_found_asociacion, db)
      | some _ =>
        (.ok, { db with evento_servicio := db.evento_servicio.eraseP (fun es =>
          es.evento_id == evento_id && es.servicio_id == servicio_id) })

/-- Results of the `admin_eliminar_servicio` route (app.py lines 366-380),
including the admin_required gate (app.py lines 30-40). -/
inductive DeleteServicioResult where
  | sin_permiso
  | not_found
  | en_uso (n : Nat)
  | ok
deriving DecidableEq

/-- app.py lines 366-380, `admin_eliminar_servicio` (behind admin_required):
fetch the service, count the association rows referencing it; when the count
is positive refuse with the count in the flashed message and leave the store
untouched; otherwise delete the service row. -/
def admin_eliminar_servicio (db : DB) (u : Usuario) (servicio_id : Nat) :
    DeleteServicioResult × DB :=
  if !u.es_admin then (.sin_permiso, db)
  else
    match db.servicios.find? (fun s => s.id == servicio_id) with
    | none => (.not_found, db)
    | some _ =>
      let en_uso := (db.evento_servicio.filter (fun es => es.servicio_id == servicio_id)).length
      if en_uso > 0 then (.en_uso en_uso, db)
      else (.ok, { db with servicios := db.servicios.eraseP (fun s => s.id == servicio_id) })

/-- The data of EventoForm (forms.py lines 101-170) after field coercion:
`fecha_evento` already carries the strptime result of the submitted string
(`none` when parsing fails, app.py lines 198-202), num_invitados and
presupuesto_estimado are Optional fields. -/
structure EventoFormData where
  titulo : String
  descripcion : String
  fecha_evento : Option Nat
  lugar : String
  num_invitados : Option Nat
  presupuesto_estimado : Option ℚ
  estado : String
deriving DecidableEq

/-- The choices of EventoForm.estado (forms.py lines 162-170). -/
def estadoChoices : List String :=
  ["pendiente", "confirmado", "cancelado", "completado"]

/-- The validators of EventoForm (forms.py lines 101-170): title 5-200
characters, description at most 1000, place 5-255, guest count 1-10000 when
given, budget nonnegative when given, and estado one of the four select
choices. -/
def eventoFormValida (f : EventoFormData) : Prop :=
  5 ≤ f.titulo.length ∧ f.titulo.length ≤ 200 ∧
  f.descripcion.length ≤ 1000 ∧
  5 ≤ f.lugar.length ∧ f.lugar.length ≤ 255 ∧
  (∀ n ∈ f.num_invitados, 1 ≤ n ∧ n ≤ 10000) ∧
  (∀ p ∈ f.presupuesto_estimado, 0 ≤ p) ∧
  f.estado ∈ estadoChoices

instance (f : EventoFormData) : Decidable (eventoFormValida f) := by
  unfold eventoFormValida
  infer_instance

/-- app.py lines 182-218, `cliente_editar_evento`, from the fetched event on:
run the ownership test, validate the form, parse the date (flash and abandon
on failure), then assign titulo, descripcion, fecha_evento, lugar,
num_invitados and presupuesto_estimado from the form, and assign estado from
the form only when the actor is an administrator (app.py lines 211-212).
`none` means the store was left untouched. -/
def cliente_editar_evento (u : Usuario) (evento : Evento) (form : EventoFormData) :
    Option Evento :=
  if acceso_denegado u evento then none
  else if eventoFormValida form then
    match form.fecha_evento with
    | none => none
    | some fecha =>
      some { evento with
        titulo := form.titulo
        descripcion := form.descripcion
        fecha_evento := fecha
        lugar := form.lugar
        num_invitados := form.num_invitados
        presupuesto_estimado := form.presupuesto_estimado
        estado := if u.es_admin then form.estado else evento.estado }
  else none

/-- app.py lines 221-235, `cliente_cancelar_evento`, from the fetched event
on: run the ownership test, then set estado to "cancelado" with no further
condition. `none` means the route redirected without mutating. -/
def cliente_cancelar_evento (u : Usuario) (evento : Evento) : Option Evento :=
  if acceso_denegado u evento then none
  else some { evento with estado := "cancelado" }

/-- app.py lines 136-165, `cliente_nuevo_evento`: validate the form, parse
the date (abandon on failure), insert a new event owned by the current user
with estado "pendiente". `new_id` is the primary key the store assigns. -/
def cliente_nuevo_evento (u : Usuario) (form : EventoFormData) (new_id : Nat) :
    Option Evento :=
  if eventoFormValida form then
    match form.fecha_evento with
    | none => none
    | some fecha =>
      some { id := new_id
             usuario_id := u.id
             titulo := form.titulo
             descripcion := form.descripcion
             fecha_evento := fecha
             lugar := form.lugar
             num_invitados := form.num_invitados
             presupuesto_estimado := form.presupuesto_estimado
             estado := "pendiente" }
  else none

/-- Outcomes of the login route that the claims distinguish. -/
inductive LoginResult where
  | cuenta_desactivada
  | exito
  | credenciales_invalidas
deriving DecidableEq

/-- app.py lines 64-83, the POST branch of `login`: look the user up by
username; when found and the bcrypt check of the submitted password against
the stored hash passes, test the activo flag (flashing the distinct
deactivated-account message when it is false) and otherwise log in; in every
other case flash the generic wrong-user-or-password message.
`check_password_hash` stands for bcrypt.check_password_hash. -/
def login (usuarios : List Usuario) (check_password_hash : String → String → Bool)
    (username password : String) : LoginResult :=
  match usuarios.find? (fun u => u.username == username) with
  | some usuario =>
    if check_password_hash usuario.password_hash password then
      if !usuario.activo then .cuenta_desactivada else .exito
    else .credenciales_invalidas
  | none => .credenciales_invalidas

/-- A client account used to evaluate the routes on concrete inputs. -/
def uAna : Usuario :=
  { id := 7, username := "ana", password_hash := "hash-ana", rol := "cliente", activo := true }

/-- An administrator account used to evaluate the routes on concrete inputs. -/
def uAdmin : Usuario :=
  { id := 1, username := "root", password_hash := "hash-root", rol := "admin", activo := true }

/-- A deactivated account used to evaluate the login route. -/
def uBaja : Usuario :=
  { id := 9, username := "baja", password_hash := "hash-baja", rol := "cliente", activo := false }

/-- A concrete event owned by uAna. -/
def evBoda : Evento :=
  { id := 1, usuario_id := 7, titulo := "Boda de Ana y Carlos", descripcion := ""
    fecha_evento := 20260620, lugar := "Playa del Carmen", num_invitados := some 120
    presupuesto_estimado := some 90000, estado := "pendiente" }

/-- A concrete catalog service. -/
def svCatering : Servicio :=
  { id := 1, nombre := "Catering", precio_base := 500, disponible := true }

/-- A store holding evBoda and svCatering with no association rows. -/
def dbBase : DB :=
  { eventos := [evBoda], servicios := [svCatering], evento_servicio := [] }

/-- A store in which svCatering is already attached to evBoda at price 450. -/
def dbConServicio : DB :=
  { eventos := [evBoda], servicios := [svCatering]
    evento_servicio := [{ evento_id := 1, servicio_id := 1, precio_acordado := 450 }] }

/-- A concrete valid EventoForm submission whose estado differs from
the stored estado of evBoda. -/
def formBoda : EventoFormData :=
  { titulo := "Boda de Ana y Carlos II", descripcion := "tema tropical"
    fecha_evento := some 20260721, lugar := "Tulum centro", num_invitados := some 80
    presupuesto_estimado := some 75000, estado := "completado" }

/-- A concrete event already in estado completado, owned by uAna. -/
def evCompletado : Evento :=
  { evBoda with id := 2, estado := "completado" }

/-! Helper lemmas. -/

/-- Round-half-even never falls below the floor. -/
theorem floor_le_rne (x : ℚ) : ⌊x⌋ ≤ rne x := by
  unfold rne
  split_ifs <;> omega

/-- The float conversion of a positive rational is positive (so a positive
submitted price is never turned into the falsy float 0.0). -/
theorem pyFloat_pos (q : ℚ) (h0 : 0 < q) : 0 < pyFloat q := by
  unfold pyFloat
  rw [abs_of_pos h0]
  have hself : (2:ℚ) ^ Int.log 2 q ≤ q := Int.zpow_log_le_self (by norm_num) h0
  have hpow : (0:ℚ) < (2:ℚ) ^ (52 - Int.log 2 q) := zpow_pos (by norm_num) _
  have h1 : (1:ℚ) ≤ q * 2 ^ (52 - Int.log 2 q) := by
    have h2 : (2:ℚ) ^ Int.log 2 q * 2 ^ (52 - Int.log 2 q) ≤ q * 2 ^ (52 - Int.log 2 q) :=
      mul_le_mul_of_nonneg_right hself (le_of_lt hpow)
    have h3 : (2:ℚ) ^ Int.log 2 q * 2 ^ (52 - Int.log 2 q) = 2 ^ (52:ℤ) := by
      rw [← zpow_add₀ (by norm_num : (2:ℚ) ≠ 0)]
      congr 1
      ring
    have h4 : (1:ℚ) ≤ 2 ^ (52:ℤ) := by
      rw [show ((52:ℤ) = ((52:ℕ):ℤ)) from rfl, zpow_natCast]
      norm_num
    linarith
  have hfl : 1 ≤ ⌊q * 2 ^ (52 - Int.log 2 q)⌋ := Int.le_floor.mpr (by exact_mod_cast h1)
  have hrne : 1 ≤ rne (q * 2 ^ (52 - Int.log 2 q)) :=
    le_trans hfl (floor_le_rne _)
  have hpos : (0:ℚ) < (rne (q * 2 ^ (52 - Int.log 2 q)) : ℚ) := by exact_mod_cast hrne
  exact div_pos hpos hpow

/-- Round-half-even moves a value by at most one half. -/
theorem rne_abs_sub_le (x : ℚ) : |(rne x : ℚ) - x| ≤ 1 / 2 := by
  have hfl : (⌊x⌋ : ℚ) ≤ x := Int.floor_le x
  have hfu : x < ⌊x⌋ + 1 := Int.lt_floor_add_one x
  unfold rne
  split_ifs with h1 h2 h3 <;>
    (rw [abs_le]; push_cast; constructor <;> linarith)

/-- The binary64 conversion of a positive rational errs by at most half an
ulp, that is by at most 2 to the power log2 of the value minus 53. -/
theorem pyFloat_error (q : ℚ) (hq : 0 < q) :
    |pyFloat q - q| ≤ 2 ^ (Int.log 2 q - 53) := by
  unfold pyFloat
  rw [abs_of_pos hq]
  have hpow : (0:ℚ) < (2:ℚ) ^ (52 - Int.log 2 q) := zpow_pos (by norm_num) _
  have hx : (rne (q * 2 ^ (52 - Int.log 2 q)) : ℚ) / 2 ^ (52 - Int.log 2 q) - q
      = ((rne (q * 2 ^ (52 - Int.log 2 q)) : ℚ) - q * 2 ^ (52 - Int.log 2 q)) /
        2 ^ (52 - Int.log 2 q) := by
    field_simp
    ring
  rw [hx, abs_div, abs_of_pos hpow, div_le_iff₀ hpow]
  have h2 : (2:ℚ) ^ (Int.log 2 q - 53) * 2 ^ (52 - Int.log 2 q) = 1 / 2 := by
    rw [← zpow_add₀ (by norm_num : (2:ℚ) ≠ 0)]
    have hexp : Int.log 2 q - 53 + (52 - Int.log 2 q) = -1 := by ring
    rw [hexp, zpow_neg, zpow_one]
    norm_num
  rw [h2]
  exact rne_abs_sub_le _

/-- For every positive two-decimal price inside the Numeric(10, 2) range,
the scale-2 quantization of the binary64 float of the price recovers the
price exactly: the float detour of app.py line 249 is cancelled by the
column type at write time, so no binary rounding reaches the store. -/
theorem pyFloat_numeric_redondeo (n : ℤ) (h0 : 0 < n) (h1 : n < 10 ^ 10) :
    numericEscala2 (pyFloat ((n : ℚ) / 100)) = (n : ℚ) / 100 := by
  have hq : (0:ℚ) < (n : ℚ) / 100 := by positivity
  have hq8 : (n : ℚ) / 100 < 10 ^ 8 := by
    rw [div_lt_iff₀ (by norm_num : (0:ℚ) < 100)]
    calc ((n:ℚ)) < ((10:ℚ) ^ 10) := by exact_mod_cast h1
      _ = 10 ^ 8 * 100 := by norm_num
  have hL : Int.log 2 ((n : ℚ) / 100) ≤ 26 := by
    by_contra hL27
    push_neg at hL27
    have h27 : (2:ℚ) ^ (27:ℤ) ≤ 2 ^ (Int.log 2 ((n : ℚ) / 100)) :=
      zpow_le_zpow_right₀ (by norm_num) (by omega)
    have hself : (2:ℚ) ^ Int.log 2 ((n : ℚ) / 100) ≤ (n : ℚ) / 100 :=
      Int.zpow_log_le_self (by norm_num) hq
    have h2v : (2:ℚ) ^ (27:ℤ) = 134217728 := by
      rw [show ((27:ℤ) = ((27:ℕ):ℤ)) from rfl, zpow_natCast]
      norm_num
    have hge : (134217728 : ℚ) ≤ (n : ℚ) / 100 := by
      rw [← h2v]
      exact le_trans h27 hself
    have h8v : ((10:ℚ) ^ 8) = 100000000 := by norm_num
    linarith [hq8, le_of_eq h8v]
  have herr : |pyFloat ((n : ℚ) / 100) - (n : ℚ) / 100| ≤
      2 ^ (Int.log 2 ((n : ℚ) / 100) - 53) := pyFloat_error _ hq
  have herr2 : |pyFloat ((n : ℚ) / 100) - (n : ℚ) / 100| < 1 / 200 := by
    have hle : (2:ℚ) ^ (Int.log 2 ((n : ℚ) / 100) - 53) ≤ 2 ^ (-27 : ℤ) :=
      zpow_le_zpow_right₀ (by norm_num) (by omega)
    have hv : (2:ℚ) ^ (-27:ℤ) < 1 / 200 := by
      rw [zpow_neg, show ((27:ℤ) = ((27:ℕ):ℤ)) from rfl, zpow_natCast]
      norm_num
    linarith
  have hy : |pyFloat ((n : ℚ) / 100) * 100 - (n:ℚ)| < 1 / 2 := by
    have hrw : pyFloat ((n : ℚ) / 100) * 100 - (n:ℚ)
        = (pyFloat ((n : ℚ) / 100) - (n : ℚ) / 100) * 100 := by ring
    rw [hrw, abs_mul, abs_of_pos (by norm_num : (0:ℚ) < 100)]
    nlinarith [herr2]
  rw [abs_lt] at hy
  have hy0 : (0:ℚ) ≤ pyFloat ((n : ℚ) / 100) * 100 := by
    have hn1 : (1:ℚ) ≤ (n:ℚ) := by exact_mod_cast h0
    linarith
  have hfloor : ⌊pyFloat ((n : ℚ) / 100) * 100 + 1 / 2⌋ = n := by
    rw [Int.floor_eq_iff]
    constructor <;> linarith
  unfold numericEscala2 roundHalfAway
  rw [if_pos hy0, hfloor]

/-! Claim theorems. -/

/-- C1: for every event, total_cost is the sum of agreed_price over the
attached association rows and is zero for an event with none, and the
arithmetic that reaches the store is exact decimal: although app.py line
249 parses the submitted price through a binary64 float, the Numeric(10, 2)
column quantizes the bound value back to the exact submitted two-decimal
price at write time, so attaching a submitted decimal price n/100 inside
the column range raises calcular_total by exactly n/100, with no binary
rounding drift. -/
theorem calcular_total_decimal_exacto :
    (∀ n : ℤ, 0 < n → n < 10 ^ 10 →
      numericEscala2 (pyFloat ((n : ℚ) / 100)) = (n : ℚ) / 100) ∧
    (∀ (db : DB) (e : Evento), Evento.servicios_contratados db e = [] →
      Evento.calcular_total db e = 0) ∧
    (∀ (db : DB) (u : Usuario) (eid sid : Nat) (ev : Evento) (n : ℤ),
      db.eventos.find? (fun e => e.id == eid) = some ev →
      acceso_denegado u ev = false →
      sid ≠ 0 →
      (db.servicios.find? (fun s => s.id == sid)).isSome = true →
      db.evento_servicio.find? (fun es =>
        es.evento_id == eid && es.servicio_id == sid) = none →
      0 < n → n < 10 ^ 10 →
      Evento.calcular_total
        (cliente_agregar_servicio db u eid (some sid)
          (some (pyFloat ((n : ℚ) / 100)))).2 ev =
        Evento.calcular_total db ev + (n : ℚ) / 100) := by
  refine ⟨pyFloat_numeric_redondeo, ?_, ?_⟩
  · intro db e h
    unfold Evento.calcular_total
    rw [h]
    rfl
  · intro db u eid sid ev n hev hacc hsid hsv hnew h0 h1
    obtain ⟨sv, hsv2⟩ := Option.isSome_iff_exists.mp hsv
    have hn : (0:ℚ) < (n : ℚ) := by exact_mod_cast h0
    have hp : pyFloat ((n : ℚ) / 100) ≠ 0 :=
      ne_of_gt (pyFloat_pos _ (by positivity))
    have hatt : cliente_agregar_servicio db u eid (some sid)
        (some (pyFloat ((n : ℚ) / 100))) =
        (.ok, { db with evento_servicio := db.evento_servicio ++
          [{ evento_id := eid, servicio_id := sid,
             precio_acordado := numericEscala2 (pyFloat ((n : ℚ) / 100)) }] }) := by
      simp [cliente_agregar_servicio, hev, hacc, truthyNat, truthyRat, hsid, hp, hsv2, hnew]
    rw [hatt]
    have hevid : ev.id = eid := by
      have hfs := List.find?_some hev
      simpa using hfs
    unfold Evento.calcular_total Evento.servicios_contratados
    rw [show ({ db with evento_servicio := db.evento_servicio ++
      [{ evento_id := eid, servicio_id := sid,
         precio_acordado := numericEscala2 (pyFloat ((n : ℚ) / 100)) }] } : DB).evento_servicio
      = db.evento_servicio ++
        [{ evento_id := eid, servicio_id := sid,
           precio_acordado := numericEscala2 (pyFloat ((n : ℚ) / 100)) }] from rfl]
    rw [List.filter_append, List.map_append, List.sum_append]
    simp [hevid, pyFloat_numeric_redondeo n h0 h1]

/-- C1 witness: attaching the submitted decimal price 4.35 = 435/100 to
evBoda in dbBase raises its total by exactly 435/100. -/
theorem calcular_total_decimal_exacto_testigo :
    Evento.calcular_total
      (cliente_agregar_servicio dbBase uAna 1 (some 1)
        (some (pyFloat (((435 : ℤ) : ℚ) / 100)))).2 evBoda =
      Evento.calcular_total dbBase evBoda + ((435 : ℤ) : ℚ) / 100 :=
  calcular_total_decimal_exacto.2.2 dbBase uAna 1 1 evBoda 435 (by decide) (by decide)
    (by decide) (by decide) (by decide) (by decide) (by decide)

/-- C2: can_view_event and can_mutate_event hold exactly when the actor owns
the event or the actor role is administrator; in particular both deny every
non-owning non-administrator actor and both allow the owner and every
administrator, and the two permissions coincide. -/
theorem can_view_mutate_event_correcto (u : Usuario) (e : Evento) :
    (can_view_event u e = true ↔ (e.usuario_id = u.id ∨ u.rol = "admin")) ∧
    (can_mutate_event u e = true ↔ (e.usuario_id = u.id ∨ u.rol = "admin")) := by
  constructor <;>
    simp [can_view_event, can_mutate_event, acceso_denegado, Usuario.es_admin]

/-- C3: the claim says an authorized attach fails with a ValidationError
unless the agreed price is strictly positive, and that no attachment with a
zero or negative agreed price is ever created. The code breaks this: the
route bypasses the NumberRange(min=0.01) validator of
AgregarServicioEventoForm and only applies Python truthiness, which rejects
0 but accepts every negative price. Submitting price -5 on an owned event
succeeds and creates an association row whose agreed price is -5. -/
theorem agregar_acepta_precio_negativo :
    (cliente_agregar_servicio dbBase uAna 1 (some 1) (some (-5))).1 = AttachResult.ok ∧
    (cliente_agregar_servicio dbBase uAna 1 (some 1) (some (-5))).2.evento_servicio =
      [{ evento_id := 1, servicio_id := 1, precio_acordado := -5 }] := by
  have h5 : numericEscala2 (-5) = -5 := by
    have hfl : ⌊(500 : ℚ) + 1 / 2⌋ = 500 := by
      rw [Int.floor_eq_iff]
      norm_num
    unfold numericEscala2 roundHalfAway
    rw [if_neg (by norm_num)]
    norm_num [hfl]
  constructor
  · rfl
  · have hlist : (cliente_agregar_servicio dbBase uAna 1 (some 1) (some (-5))).2.evento_servicio =
        [{ evento_id := 1, servicio_id := 1, precio_acordado := numericEscala2 (-5) }] := rfl
    rw [hlist, h5]

/-- C4: when the (event, service) pair is already attached, an authorized
attach call with well-formed data fails with the already-attached outcome
and returns the store unchanged, so no association is added or modified and
the existing attachment keeps its agreed price. -/
theorem agregar_servicio_duplicado_falla (db : DB) (u : Usuario) (eid sid : Nat) (p : ℚ)
    (ev : Evento)
    (hev : db.eventos.find? (fun e => e.id == eid) = some ev)
    (hacc : acceso_denegado u ev = false)
    (hsid : sid ≠ 0) (hp : p ≠ 0)
    (hsv : (db.servicios.find? (fun s => s.id == sid)).isSome = true)
    (hdup : (db.evento_servicio.find? (fun es =>
      es.evento_id == eid && es.servicio_id == sid)).isSome = true) :
    cliente_agregar_servicio db u eid (some sid) (some p) = (.ya_agregado, db) := by
  obtain ⟨sv, hsv2⟩ := Option.isSome_iff_exists.mp hsv
  simp [cliente_agregar_servicio, hev, hacc, truthyNat, truthyRat, hsid, hp, hsv2, hdup]

/-- C4 witness: in dbConServicio the pair (1, 1) is already attached at
price 450; a second attach call fails ya_agregado and leaves the store as it
was. -/
theorem agregar_servicio_duplicado_falla_testigo :
    cliente_agregar_servicio dbConServicio uAna 1 (some 1) (some 450) =
      (.ya_agregado, dbConServicio) :=
  agregar_servicio_duplicado_falla dbConServicio uAna 1 1 450 evBoda (by decide) (by decide)
    (by decide) (by decide) (by decide) (by decide)

/-- C5: in an authorized, validated edit, a client actor has the submitted
estado ignored rather than rejected: the edit succeeds, every other
submitted field is stored and estado keeps its stored value; an
administrator actor instead has the submitted estado stored. -/
theorem editar_evento_estado_solo_admin (u : Usuario) (e : Evento) (f : EventoFormData)
    (fecha : Nat) (hacc : acceso_denegado u e = false) (hval : eventoFormValida f)
    (hf : f.fecha_evento = some fecha) :
    (u.es_admin = false →
      cliente_editar_evento u e f = some { e with
        titulo := f.titulo, descripcion := f.descripcion, fecha_evento := fecha,
        lugar := f.lugar, num_invitados := f.num_invitados,
        presupuesto_estimado := f.presupuesto_estimado, estado := e.estado }) ∧
    (u.es_admin = true →
      cliente_editar_evento u e f = some { e with
        titulo := f.titulo, descripcion := f.descripcion, fecha_evento := fecha,
        lugar := f.lugar, num_invitados := f.num_invitados,
        presupuesto_estimado := f.presupuesto_estimado, estado := f.estado }) := by
  constructor <;> intro hadm <;> simp [cliente_editar_evento, hacc, hval, hf, hadm]

/-- C5 witness: the client uAna submits formBoda whose estado is completado;
the edit succeeds, all other fields are applied, and the stored estado
pendiente is kept. -/
theorem editar_evento_estado_solo_admin_testigo :
    cliente_editar_evento uAna evBoda formBoda = some { evBoda with
      titulo := formBoda.titulo, descripcion := formBoda.descripcion,
      fecha_evento := 20260721, lugar := formBoda.lugar,
      num_invitados := formBoda.num_invitados,
      presupuesto_estimado := formBoda.presupuesto_estimado, estado := evBoda.estado } :=
  (editar_evento_estado_solo_admin uAna evBoda formBoda 20260721 (by decide) (by decide)
    rfl).1 (by decide)

/-- C6: for an administrator, deleting a service referenced by at least one
association fails with the in-use outcome carrying exactly the number of
referencing association rows and returns the store unchanged (service and
attachments intact); and whenever the delete succeeds, the reference count
was zero. -/
theorem eliminar_servicio_en_uso (db : DB) (u : Usuario) (sid : Nat)
    (hadmin : u.es_admin = true)
    (hsv : (db.servicios.find? (fun s => s.id == sid)).isSome = true) :
    (1 ≤ (db.evento_servicio.filter (fun es => es.servicio_id == sid)).length →
      admin_eliminar_servicio db u sid =
        (.en_uso (db.evento_servicio.filter (fun es => es.servicio_id == sid)).length, db)) ∧
    ((admin_eliminar_servicio db u sid).1 = .ok →
      (db.evento_servicio.filter (fun es => es.servicio_id == sid)).length = 0) := by
  obtain ⟨sv, hsv2⟩ := Option.isSome_iff_exists.mp hsv
  constructor
  · intro hn
    have hpos : 0 < (db.evento_servicio.filter (fun es => es.servicio_id == sid)).length := hn
    simp [admin_eliminar_servicio, hadmin, hsv2, hpos]
  · intro hok
    unfold admin_eliminar_servicio at hok
    rw [hadmin, hsv2] at hok
    simp only [Bool.not_true, Bool.false_eq_true, if_false] at hok
    split_ifs at hok with hc
    omega

/-- C6 witness: in dbConServicio the service 1 is referenced by one
association row; the administrator delete fails en_uso 1 and the store is
returned unchanged. -/
theorem eliminar_servicio_en_uso_testigo :
    admin_eliminar_servicio dbConServicio uAdmin 1 = (.en_uso 1, dbConServicio) :=
  (eliminar_servicio_en_uso dbConServicio uAdmin 1 (by decide) (by decide)).1 (by decide)

/-- C7: once the ownership test passes, cancel sets estado to cancelado with
no condition on the current estado, for every event, including events
already completado or cancelado. -/
theorem cancelar_evento_incondicional (u : Usuario) (e : Evento)
    (hacc : acceso_denegado u e = false) :
    cliente_cancelar_evento u e = some { e with estado := "cancelado" } := by
  simp [cliente_cancelar_evento, hacc]

/-- C7 witness: the owner cancels evCompletado, an event already in estado
completado, and the result is the event with estado cancelado. -/
theorem cancelar_evento_incondicional_testigo :
    cliente_cancelar_evento uAna evCompletado = some { evCompletado with estado := "cancelado" } :=
  cancelar_evento_incondicional uAna evCompletado (by decide)

/-- C8: attaching a service with a nonzero agreed price to an event that did
not yet reference it and then detaching that same service returns the store,
and in particular calcular_total of the event, to exactly the value before
the attachment. -/
theorem agregar_luego_eliminar_restaura (db : DB) (u : Usuario) (eid sid : Nat) (p : ℚ)
    (ev : Evento)
    (hev : db.eventos.find? (fun e => e.id == eid) = some ev)
    (hacc : acceso_denegado u ev = false)
    (hsid : sid ≠ 0) (hp : p ≠ 0)
    (hsv : (db.servicios.find? (fun s => s.id == sid)).isSome = true)
    (hnew : db.evento_servicio.find? (fun es =>
      es.evento_id == eid && es.servicio_id == sid) = none) :
    (cliente_eliminar_servicio
        (cliente_agregar_servicio db u eid (some sid) (some p)).2 u eid sid).2 = db ∧
    Evento.calcular_total
        (cliente_eliminar_servicio
          (cliente_agregar_servicio db u eid (some sid) (some p)).2 u eid sid).2 ev =
      Evento.calcular_total db ev := by
  obtain ⟨sv, hsv2⟩ := Option.isSome_iff_exists.mp hsv
  have hatt : cliente_agregar_servicio db u eid (some sid) (some p) =
      (.ok, { db with evento_servicio := db.evento_servicio ++
        [{ evento_id := eid, servicio_id := sid,
           precio_acordado := numericEscala2 p }] }) := by
    simp [cliente_agregar_servicio, hev, hacc, truthyNat, truthyRat, hsid, hp, hsv2, hnew]
  have hfind2 : ((db.evento_servicio ++
      [({ evento_id := eid, servicio_id := sid,
          precio_acordado := numericEscala2 p } : EventoServicio)]).find?
      (fun es => es.evento_id == eid && es.servicio_id == sid)) =
      some { evento_id := eid, servicio_id := sid, precio_acordado := numericEscala2 p } := by
    rw [List.find?_append, hnew]
    simp
  have herase : ((db.evento_servicio ++
      [({ evento_id := eid, servicio_id := sid,
          precio_acordado := numericEscala2 p } : EventoServicio)]).eraseP
      (fun es => es.evento_id == eid && es.servicio_id == sid)) = db.evento_servicio := by
    rw [List.eraseP_append_right _ ?hnot]
    case hnot =>
      intro b hb
      have hbn := List.find?_eq_none.mp hnew b hb
      simpa using hbn
    simp
  have hdel : (cliente_eliminar_servicio
      { db with evento_servicio := db.evento_servicio ++
        [{ evento_id := eid, servicio_id := sid,
           precio_acordado := numericEscala2 p }] } u eid sid).2 = db := by
    simp [cliente_eliminar_servicio, hev, hacc, hfind2, herase]
  rw [hatt]
  exact ⟨hdel, by rw [hdel]⟩

/-- C8 witness: attaching service 1 to evBoda in dbBase at price 450 and
detaching it again restores dbBase, and the total of evBoda returns to its
prior value. -/
theorem agregar_luego_eliminar_restaura_testigo :
    (cliente_eliminar_servicio
        (cliente_agregar_servicio dbBase uAna 1 (some 1) (some 450)).2 uAna 1 1).2 = dbBase ∧
    Evento.calcular_total
        (cliente_eliminar_servicio
          (cliente_agregar_servicio dbBase uAna 1 (some 1) (some 450)).2 uAna 1 1).2 evBoda =
      Evento.calcular_total dbBase evBoda :=
  agregar_luego_eliminar_restaura dbBase uAna 1 1 450 evBoda (by decide) (by decide)
    (by decide) (by decide) (by decide) (by decide)

/-- C9: no exposed operation changes the owner of an event: every successful
edit keeps usuario_id, every successful cancel keeps usuario_id, and every
event created by cliente_nuevo_evento is owned by the creating account. -/
theorem operaciones_preservan_usuario_id :
    (∀ (u : Usuario) (e : Evento) (f : EventoFormData) (e2 : Evento),
      cliente_editar_evento u e f = some e2 → e2.usuario_id = e.usuario_id) ∧
    (∀ (u : Usuario) (e : Evento) (e2 : Evento),
      cliente_cancelar_evento u e = some e2 → e2.usuario_id = e.usuario_id) ∧
    (∀ (u : Usuario) (f : EventoFormData) (i : Nat) (e2 : Evento),
      cliente_nuevo_evento u f i = some e2 → e2.usuario_id = u.id) := by
  refine ⟨?_, ?_, ?_⟩
  · intro u e f e2 h
    unfold cliente_editar_evento at h
    by_cases hacc : acceso_denegado u e = true
    · rw [if_pos hacc] at h
      cases h
    · rw [if_neg hacc] at h
      by_cases hval : eventoFormValida f
      · rw [if_pos hval] at h
        rcases hfe : f.fecha_evento with _ | fecha
        · rw [hfe] at h
          cases h
        · rw [hfe] at h
          simp only [Option.some.injEq] at h
          rw [← h]
      · rw [if_neg hval] at h
        cases h
  · intro u e e2 h
    unfold cliente_cancelar_evento at h
    by_cases hacc : acceso_denegado u e = true
    · rw [if_pos hacc] at h
      cases h
    · rw [if_neg hacc] at h
      simp only [Option.some.injEq] at h
      rw [← h]
  · intro u f i e2 h
    unfold cliente_nuevo_evento at h
    by_cases hval : eventoFormValida f
    · rw [if_pos hval] at h
      rcases hfe : f.fecha_evento with _ | fecha
      · rw [hfe] at h
        cases h
      · rw [hfe] at h
        simp only [Option.some.injEq] at h
        rw [← h]
    · rw [if_neg hval] at h
      cases h

/-- C9 witness: cancelling evCompletado as its owner keeps usuario_id. -/
theorem operaciones_preservan_usuario_id_testigo :
    ({ evCompletado with estado := "cancelado" } : Evento).usuario_id =
      evCompletado.usuario_id :=
  operaciones_preservan_usuario_id.2.1 uAna evCompletado
    { evCompletado with estado := "cancelado" } (by decide)

/-- C10: the login route tests the password before the activo flag: when the
stored hash does not match the submitted password the outcome is the generic
invalid-credentials failure whatever the activo flag says, and the distinct
deactivated-account outcome occurs exactly when the password matches and the
account is deactivated. -/
theorem login_verifica_password_antes_de_activo (usuarios : List Usuario)
    (check : String → String → Bool) (username password : String) (u : Usuario)
    (hfind : usuarios.find? (fun x => x.username == username) = some u) :
    (check u.password_hash password = false →
      login usuarios check username password = .credenciales_invalidas) ∧
    (login usuarios check username password = .cuenta_desactivada ↔
      check u.password_hash password = true ∧ u.activo = false) := by
  constructor
  · intro hc
    simp [login, hfind, hc]
  · constructor
    · intro h
      simp only [login, hfind] at h
      split_ifs at h with h1 h2
      all_goals simp_all
    · rintro ⟨hc, ha⟩
      simp [login, hfind, hc, ha]

/-- C10 witness: the deactivated account uBaja with a wrong password gets
the generic invalid-credentials outcome, not the deactivated one. -/
theorem login_verifica_password_antes_de_activo_testigo :
    login [uBaja] (fun h p => h == p) "baja" "incorrecta" = .credenciales_invalidas :=
  (login_verifica_password_antes_de_activo [uBaja] (fun h p => h == p) "baja" "incorrecta"
    uBaja (by decide)).1 (by decide)
